import Mathlib

/-
Verification of the CEZ HDO tariff-window engine.

The model covers:
  * the calendar/datetime arithmetic used by the four countdown queries of
    `custom_components/cez_hdo/base_entity.py` (Python `datetime.combine`,
    `replace(day=day+1)`, datetime subtraction), at whole-second resolution;
  * the eight-position HDO tuple and the four countdown queries
    `get_low_tariff_remaining_seconds`, `get_high_tariff_remaining_seconds`,
    `get_next_low_tariff_seconds`, `get_next_high_tariff_seconds`;
  * the schedule selector and tariff evaluator (`downloader.isHdo`), whose
    source file is not among the provided sources and is therefore modelled
    from the specification;
  * the entity state wrapper `_get_hdo_data`, the frequent-update override,
    and the `formatted_time` attribute decomposition of `sensor.py`.

Python integers are unbounded, so Nat/Int model them directly.  Instants are
modelled at whole-second resolution (the engine's contract speaks of whole
seconds throughout).  A Python call that can raise `ValueError` is modelled
with an explicit `PyResult`.
-/

namespace CezHdo

/-- Gregorian leap-year test, as used by Python's `datetime` calendar. -/
def isLeapYear (y : Nat) : Bool :=
  (y % 4 == 0 && y % 100 != 0) || y % 400 == 0

/-- Number of days in month `m` of year `y` (Python `calendar.monthrange`). -/
def daysInMonth (y m : Nat) : Nat :=
  if m == 2 then (if isLeapYear y then 29 else 28)
  else if m == 4 || m == 6 || m == 9 || m == 11 then 30
  else 31

/-- A calendar date, as in Python `datetime.date`. -/
structure Date where
  year : Nat
  month : Nat
  day : Nat
deriving DecidableEq, Repr

/-- Days strictly before year `y`, proleptic Gregorian (rata die). -/
def daysBeforeYear (y : Nat) : Nat :=
  365 * (y - 1) + (y - 1) / 4 - (y - 1) / 100 + (y - 1) / 400

/-- Days in year `y` strictly before month `m`. -/
def daysBeforeMonth (y m : Nat) : Nat :=
  (List.range (m - 1)).foldl (fun a i => a + daysInMonth y (i + 1)) 0

/-- Absolute day ordinal of a date (Python `date.toordinal`, shifted by 1). -/
def Date.toDays (d : Date) : Nat :=
  daysBeforeYear d.year + daysBeforeMonth d.year d.month + (d.day - 1)

/-- Python `date.replace(day=newDay)`: raises `ValueError` (here: `none`)
when `newDay` is not a valid day of the date's month. -/
def replaceDay (d : Date) (newDay : Nat) : Option Date :=
  if 1 ≤ newDay && newDay ≤ daysInMonth d.year d.month then
    some ⟨d.year, d.month, newDay⟩
  else
    none

def secondsPerDay : Nat := 86400

/-- A timezone-naive datetime at whole-second resolution: a calendar date
plus a seconds-of-day value. -/
structure PyDateTime where
  date : Date
  sod : Nat
deriving DecidableEq, Repr

/-- Chronological position in seconds.  Python datetime comparison and
subtraction (for datetimes carrying one fixed timezone) compute exactly
this difference. -/
def PyDateTime.toSec (t : PyDateTime) : Nat :=
  t.date.toDays * secondsPerDay + t.sod

/-- Result of a Python computation that may raise `ValueError`. -/
inductive PyResult (α : Type) where
  | ok : α → PyResult α
  | valueError : PyResult α
deriving DecidableEq, Repr

/-- The eight-position tuple produced by `downloader.isHdo` and consumed via
`CezHdoBaseEntity._get_hdo_data`: activity flags, period boundary
times-of-day (in seconds of day) and period durations (in seconds). -/
structure HdoData where
  lowActive : Bool
  lowStart : Option Nat
  lowEnd : Option Nat
  lowDuration : Option Int
  highActive : Bool
  highStart : Option Nat
  highEnd : Option Nat
  highDuration : Option Int
deriving DecidableEq, Repr

/-- The unresolved tuple `(False, None, None, None, False, None, None, None)`
returned by `_get_hdo_data` when no data is available or parsing fails. -/
def unresolvedData : HdoData :=
  ⟨false, none, none, none, false, none, none, none⟩

/-- Shared body of the four countdown queries (`base_entity.py`, lines
272-280 and the three analogous blocks): anchor the boundary time-of-day to
the reference instant's date; if the anchored instant is not after `now`,
advance it by the source's naive one-day increment
`end_today.replace(day=end_today.day + 1)` — which raises `ValueError` when
`day + 1` exceeds the month's length; finally return
`max(0, int((end - now).total_seconds()))`. -/
def boundaryCountdown (tod : Nat) (now : PyDateTime) : PyResult (Option Int) :=
  let endToday : PyDateTime := ⟨now.date, tod⟩
  if endToday.toSec ≤ now.toSec then
    match replaceDay endToday.date (endToday.date.day + 1) with
    | none => PyResult.valueError
    | some d2 =>
        PyResult.ok (some (max 0 (((PyDateTime.mk d2 tod).toSec : Int) - (now.toSec : Int))))
  else
    PyResult.ok (some (max 0 ((endToday.toSec : Int) - (now.toSec : Int))))

/-- `CezHdoBaseEntity.get_low_tariff_remaining_seconds`, as a function of the
HDO tuple and the reference instant: `None` unless the low tariff is active
and its end time is present. -/
def get_low_tariff_remaining_seconds (t : HdoData) (now : PyDateTime) :
    PyResult (Option Int) :=
  match t.lowActive, t.lowEnd with
  | true, some tod => boundaryCountdown tod now
  | _, _ => PyResult.ok none

/-- `CezHdoBaseEntity.get_high_tariff_remaining_seconds`. -/
def get_high_tariff_remaining_seconds (t : HdoData) (now : PyDateTime) :
    PyResult (Option Int) :=
  match t.highActive, t.highEnd with
  | true, some tod => boundaryCountdown tod now
  | _, _ => PyResult.ok none

/-- `CezHdoBaseEntity.get_next_low_tariff_seconds`: `None` when the low
tariff is already active or its start time is missing. -/
def get_next_low_tariff_seconds (t : HdoData) (now : PyDateTime) :
    PyResult (Option Int) :=
  match t.lowActive, t.lowStart with
  | false, some tod => boundaryCountdown tod now
  | _, _ => PyResult.ok none

/-- `CezHdoBaseEntity.get_next_high_tariff_seconds`. -/
def get_next_high_tariff_seconds (t : HdoData) (now : PyDateTime) :
    PyResult (Option Int) :=
  match t.highActive, t.highStart with
  | false, some tod => boundaryCountdown tod now
  | _, _ => PyResult.ok none

/-- Modelled from the spec: one raw schedule entry of the payload consumed by
the Schedule Selector (`downloader.py` is not among the provided sources).
An entry carries a signal code, a day descriptor and a sequence of time
ranges; a field that fails to parse is `none`.  Day descriptors are modelled
as already-localized absolute day ordinals, time-of-day values in seconds. -/
structure RawEntry where
  code : String
  day : Option Nat
  ranges : List (Option (Nat × Nat))
deriving DecidableEq, Repr

/-- A successfully parsed schedule entry. -/
structure PEntry where
  code : String
  day : Nat
  ranges : List (Nat × Nat)
deriving DecidableEq, Repr

/-- Modelled from the spec: entries with an unparsable day are skipped, as is
any time range that is unparsable or not a valid time of day. -/
def parseEntries (p : List RawEntry) : List PEntry :=
  p.filterMap (fun e =>
    e.day.map (fun d =>
      ⟨e.code, d, e.ranges.filterMap (fun r =>
        match r with
        | some (s, t) =>
            if s < secondsPerDay && t < secondsPerDay then some (s, t) else none
        | none => none)⟩))

/-- Modelled from the spec: number of distinct days on which a signal code
appears in the parsed payload. -/
def distinctDayCount (es : List PEntry) (c : String) : Nat :=
  (((es.filter (fun e => e.code == c)).map (fun e => e.day)).dedup).length

/-- Modelled from the spec: the frequency-based default signal — the code
appearing on the greatest number of distinct days, ties broken by the
lexicographically smallest code. -/
def defaultSignal (es : List PEntry) : Option String :=
  ((es.map (fun e => e.code)).dedup).foldl
    (fun best c =>
      match best with
      | none => some c
      | some b =>
          if distinctDayCount es b < distinctDayCount es c then some c
          else if distinctDayCount es c == distinctDayCount es b
              && compare c b == Ordering.lt then some c
          else some b)
    none

/-- Modelled from the spec: the signal-selection policy of §4.1 — use the
preferred code when present among the payload's codes, the frequency-based
default when no preference is given, and nothing when the preferred code is
absent. -/
def selectedSignal (es : List PEntry) (preferred : Option String) : Option String :=
  match preferred with
  | some s => if es.any (fun e => e.code == s) then some s else none
  | none => defaultSignal es

/-- Modelled from the spec: restrict the parsed entries of the selected
signal to yesterday, today and tomorrow relative to the reference day. -/
def windowsFor (es : List PEntry) (sig : String) (refDay : Nat) : List PEntry :=
  es.filter (fun e =>
    e.code == sig && (e.day + 1 == refDay || e.day == refDay || e.day == refDay + 1))

/-- Modelled from the spec: anchor one published range to its absolute day,
expanding a midnight-crossing range (end numerically below start) into
`[day start, day+1 end)`; a degenerate equal pair yields no interval. -/
def flattenRange (day : Nat) (r : Nat × Nat) : Option (Nat × Nat) :=
  if r.1 < r.2 then some (day * secondsPerDay + r.1, day * secondsPerDay + r.2)
  else if r.2 < r.1 then
    some (day * secondsPerDay + r.1, (day + 1) * secondsPerDay + r.2)
  else none

/-- Absolute low-tariff intervals of the restricted windows. -/
def flattenAll (ws : List PEntry) : List (Nat × Nat) :=
  ws.flatMap (fun w => w.ranges.filterMap (flattenRange w.day))

/-- Insertion into a start-sorted interval list. -/
def insertIv (x : Nat × Nat) : List (Nat × Nat) → List (Nat × Nat)
  | [] => [x]
  | y :: ys => if x.1 ≤ y.1 then x :: y :: ys else y :: insertIv x ys

/-- Insertion sort of intervals by start. -/
def sortIvs : List (Nat × Nat) → List (Nat × Nat)
  | [] => []
  | x :: xs => insertIv x (sortIvs xs)

/-- Sweep step of the defensive merge: absorb every following interval that
touches or overlaps the current one. -/
def mergeGo (cur : Nat × Nat) : List (Nat × Nat) → List (Nat × Nat)
  | [] => [cur]
  | y :: ys =>
      if y.1 ≤ cur.2 then mergeGo (cur.1, max cur.2 y.2) ys
      else cur :: mergeGo y ys

/-- Modelled from the spec: defensive merge of touching or overlapping
adjacent intervals of a start-sorted list. -/
def mergeSweep : List (Nat × Nat) → List (Nat × Nat)
  | [] => []
  | x :: xs => mergeGo x xs

/-- First interval start strictly after `x`. -/
def firstStartAfter (ivs : List (Nat × Nat)) (x : Nat) : Option Nat :=
  ((ivs.map Prod.fst).filter (fun s => x < s)).min?

/-- Last interval end at or before `x`. -/
def lastEndBefore (ivs : List (Nat × Nat)) (x : Nat) : Option Nat :=
  ((ivs.map Prod.snd).filter (fun e => e ≤ x)).max?

/-- Modelled from the spec: the Tariff Evaluator of §4.2 over the merged
absolute low intervals.  An empty schedule yields the unresolved tuple; an
instant inside a low interval (half-open `[start, end)`) yields the low-active
tuple carrying that interval's bounds and the next high start; any other
instant is high-active, its period bounds read from the surrounding gap. -/
def evalIntervals (ivs : List (Nat × Nat)) (refAbs : Nat) : HdoData :=
  if ivs.isEmpty then unresolvedData
  else
    match ivs.find? (fun r => r.1 ≤ refAbs && refAbs < r.2) with
    | some r =>
        { lowActive := true
          lowStart := some (r.1 % secondsPerDay)
          lowEnd := some (r.2 % secondsPerDay)
          lowDuration := some ((r.2 : Int) - (r.1 : Int))
          highActive := false
          highStart := some (r.2 % secondsPerDay)
          highEnd := none
          highDuration := none }
    | none =>
        let pe := lastEndBefore ivs refAbs
        let ns := firstStartAfter ivs refAbs
        { lowActive := false
          lowStart := ns.map (fun s => s % secondsPerDay)
          lowEnd := none
          lowDuration := none
          highActive := true
          highStart := pe.map (fun e => e % secondsPerDay)
          highEnd := ns.map (fun s => s % secondsPerDay)
          highDuration :=
            match pe, ns with
            | some a, some b => some ((b : Int) - (a : Int))
            | _, _ => none }

/-- The merged absolute low intervals the evaluator works on, for a payload,
a preferred signal and a reference instant. -/
def resolvedIntervals (p : List RawEntry) (preferred : Option String)
    (ref : PyDateTime) : List (Nat × Nat) :=
  let es := parseEntries p
  match selectedSignal es preferred with
  | none => []
  | some sig => mergeSweep (sortIvs (flattenAll (windowsFor es sig ref.date.toDays)))

/-- Modelled from the spec: `downloader.isHdo` — schedule selection followed
by tariff evaluation at the reference instant. -/
def isHdo (p : List RawEntry) (preferred : Option String) (ref : PyDateTime) :
    HdoData :=
  evalIntervals (resolvedIntervals p preferred ref) ref.toSec

/-- The fields of `CezHdoBaseEntity` that the HDO computations read: the
stored response payload, the last-update status flag and the configured
signal code. -/
structure EntityState where
  responseData : Option (List RawEntry)
  lastUpdateSuccess : Bool
  signal : Option String
deriving DecidableEq, Repr

/-- `CezHdoBaseEntity._get_hdo_data` (`base_entity.py` lines 239-261): the
unresolved tuple when no response data is stored or the last update failed,
otherwise the parser result (parser exceptions also map to the unresolved
tuple; the modelled parser is total and skips malformed entries). -/
def getHdoDataFn (st : EntityState) (now : PyDateTime) : HdoData :=
  match st.responseData, st.lastUpdateSuccess with
  | some p, true => isHdo p st.signal now
  | _, _ => unresolvedData

/-- `_get_hdo_data` as a state-passing call: the method reads the entity
fields and writes none of them. -/
def getHdoDataCall (st : EntityState) (now : PyDateTime) : HdoData × EntityState :=
  (getHdoDataFn st now, st)

/-- Entity-level countdown query: `get_low_tariff_remaining_seconds` applied
to the entity's own `_get_hdo_data` result. -/
def entityLowRemaining (st : EntityState) (now : PyDateTime) : PyResult (Option Int) :=
  get_low_tariff_remaining_seconds (getHdoDataFn st now) now

/-- Entity-level `get_high_tariff_remaining_seconds`. -/
def entityHighRemaining (st : EntityState) (now : PyDateTime) : PyResult (Option Int) :=
  get_high_tariff_remaining_seconds (getHdoDataFn st now) now

/-- Entity-level `get_next_low_tariff_seconds`. -/
def entityNextLow (st : EntityState) (now : PyDateTime) : PyResult (Option Int) :=
  get_next_low_tariff_seconds (getHdoDataFn st now) now

/-- Entity-level `get_next_high_tariff_seconds`. -/
def entityNextHigh (st : EntityState) (now : PyDateTime) : PyResult (Option Int) :=
  get_next_high_tariff_seconds (getHdoDataFn st now) now

/-- The I/O environment a full `update` could draw on: cache file contents
and the API response.  The frequent-update override consults neither. -/
structure FetchEnv where
  cache : List (Option (List RawEntry))
  api : Option (List RawEntry)
deriving DecidableEq, Repr

/-- `CezHdoFrequentUpdateEntity.update` (`base_entity.py` lines 372-376):
the body is `pass` — it neither fetches nor touches any stored field. -/
def frequentUpdateStep (st : EntityState) (_env : FetchEnv) : EntityState :=
  st

/-- The `formatted_time` attribute of the countdown sensors (`sensor.py`):
a non-null countdown value is decomposed as `s // 3600`, `(s % 3600) // 60`,
`s % 60` (rendered as `HH:MM:SS`); a null countdown yields a null attribute.
Countdown values are floored at 0, so the decomposition runs on `toNat`. -/
def formattedTime (remaining : Option Int) : Option (Nat × Nat × Nat) :=
  match remaining with
  | some v => some (v.toNat / 3600, v.toNat % 3600 / 60, v.toNat % 60)
  | none => none

/-- All four countdown queries of an entity report `None`. -/
def allCountdownsNone (st : EntityState) (now : PyDateTime) : Prop :=
  entityLowRemaining st now = PyResult.ok none ∧
  entityHighRemaining st now = PyResult.ok none ∧
  entityNextLow st now = PyResult.ok none ∧
  entityNextHigh st now = PyResult.ok none

/-- Concrete payload: signal `X`, day 2024-01-01 (ordinal 738885), one
published low range 08:00-20:00. -/
def samplePayload : List RawEntry :=
  [⟨"X", some 738885, [some (28800, 72000)]⟩]

/-- Concrete reference instant 2024-01-01 10:00:00. -/
def sampleRef : PyDateTime := ⟨⟨2024, 1, 1⟩, 36000⟩

/-- Concrete payload in which every entry has an unparsable day label. -/
def unparsablePayload : List RawEntry :=
  [⟨"X", none, [some (28800, 72000)]⟩, ⟨"Y", none, []⟩]

/-- Concrete tuple: low tariff active, ending 20:00. -/
def sampleLowActive : HdoData :=
  ⟨true, some 28800, some 72000, some 43200, false, some 72000, none, none⟩

/-- Concrete tuple with both activity flags set, for the next-start queries. -/
def bothActiveData : HdoData :=
  ⟨true, some 28800, some 72000, some 43200, true, some 72000, some 28800, some 43200⟩

/-- Concrete entity state holding the sample payload. -/
def sampleState : EntityState := ⟨some samplePayload, true, some "X"⟩

/-- Concrete fetch environment. -/
def sampleEnv : FetchEnv := ⟨[none], none⟩

section Lemmas

/-- `replace(day=day+1)`, when it succeeds on a date with `day ≥ 1`,
advances the absolute day ordinal by exactly one. -/
lemma replaceDay_toDays (d : Date) (d2 : Date) (hd : 1 ≤ d.day)
    (h : replaceDay d (d.day + 1) = some d2) :
    d2.toDays = d.toDays + 1 := by
  unfold replaceDay at h
  split at h
  · cases h
    simp only [Date.toDays]
    omega
  · cases h

/-- Whenever a countdown body returns a value, that value is at least 1
(the anchored boundary is strictly ahead after the day-rollover). -/
lemma boundaryCountdown_ge_one (tod : Nat) (now : PyDateTime) (v : Int)
    (hsod : now.sod < secondsPerDay) (hday : 1 ≤ now.date.day)
    (h : boundaryCountdown tod now = PyResult.ok (some v)) :
    1 ≤ v := by
  unfold boundaryCountdown at h
  simp only [] at h
  split at h
  · rename_i hle
    cases hr : replaceDay now.date (now.date.day + 1) with
    | none => rw [hr] at h; cases h
    | some d2 =>
        rw [hr] at h
        cases h
        have h2 : d2.toDays = now.date.toDays + 1 := replaceDay_toDays _ _ hday hr
        rw [le_max_iff]
        right
        simp only [PyDateTime.toSec, h2, secondsPerDay] at hsod ⊢
        push_cast
        omega
  · rename_i hgt
    cases h
    rw [le_max_iff]
    right
    simp only [PyDateTime.toSec, secondsPerDay] at hgt ⊢
    push_cast at hgt ⊢
    omega

/-- The remaining-low query reduces to the countdown body when the low tariff
is active and its end time is present. -/
lemma lowRem_eq (t : HdoData) (now : PyDateTime) (tod : Nat)
    (ha : t.lowActive = true) (he : t.lowEnd = some tod) :
    get_low_tariff_remaining_seconds t now = boundaryCountdown tod now := by
  unfold get_low_tariff_remaining_seconds
  rw [ha, he]

/-- The remaining-high query reduces to the countdown body when the high
tariff is active and its end time is present. -/
lemma highRem_eq (t : HdoData) (now : PyDateTime) (tod : Nat)
    (ha : t.highActive = true) (he : t.highEnd = some tod) :
    get_high_tariff_remaining_seconds t now = boundaryCountdown tod now := by
  unfold get_high_tariff_remaining_seconds
  rw [ha, he]

/-- The next-low query reduces to the countdown body when the low tariff is
inactive and its start time is present. -/
lemma nextLow_eq (t : HdoData) (now : PyDateTime) (tod : Nat)
    (ha : t.lowActive = false) (he : t.lowStart = some tod) :
    get_next_low_tariff_seconds t now = boundaryCountdown tod now := by
  unfold get_next_low_tariff_seconds
  rw [ha, he]

/-- The next-high query reduces to the countdown body when the high tariff is
inactive and its start time is present. -/
lemma nextHigh_eq (t : HdoData) (now : PyDateTime) (tod : Nat)
    (ha : t.highActive = false) (he : t.highStart = some tod) :
    get_next_high_tariff_seconds t now = boundaryCountdown tod now := by
  unfold get_next_high_tariff_seconds
  rw [ha, he]

/-- The evaluator over a non-empty merged interval list always reports
exactly one active tariff kind. -/
lemma evalIntervals_flags (ivs : List (Nat × Nat)) (refAbs : Nat)
    (h : ivs ≠ []) :
    ((evalIntervals ivs refAbs).lowActive = true ∧
      (evalIntervals ivs refAbs).highActive = false) ∨
    ((evalIntervals ivs refAbs).lowActive = false ∧
      (evalIntervals ivs refAbs).highActive = true) := by
  unfold evalIntervals
  rw [if_neg (by simpa using h)]
  cases ivs.find? (fun r => r.1 ≤ refAbs && refAbs < r.2) with
  | some r => left; exact ⟨rfl, rfl⟩
  | none => right; exact ⟨rfl, rfl⟩

/-- A payload whose entries all have unparsable days parses to nothing. -/
lemma parseEntries_nil (p : List RawEntry) (h : ∀ e ∈ p, e.day = none) :
    parseEntries p = [] := by
  unfold parseEntries
  rw [List.filterMap_eq_nil_iff]
  intro e he
  rw [h e he]
  rfl

/-- With no parsed entries, no signal is selected. -/
lemma selectedSignal_nil (preferred : Option String) :
    selectedSignal [] preferred = none := by
  cases preferred <;> rfl

/-- With a preferred signal absent from the parsed codes, no signal is
selected. -/
lemma selectedSignal_absent (es : List PEntry) (s : String)
    (h : ∀ e ∈ es, e.code ≠ s) :
    selectedSignal es (some s) = none := by
  have ha : (es.any fun e => e.code == s) = false := by
    rw [List.any_eq_false]
    intro e he
    simpa using h e he
  unfold selectedSignal
  simp [ha]

/-- Every countdown query returns `None` on the unresolved tuple. -/
lemma countdowns_none_of_unresolved (st : EntityState) (now : PyDateTime)
    (h : getHdoDataFn st now = unresolvedData) :
    allCountdownsNone st now := by
  refine ⟨?_, ?_, ?_, ?_⟩ <;>
    simp only [allCountdownsNone, entityLowRemaining, entityHighRemaining,
      entityNextLow, entityNextHigh, h] <;> rfl

/-- A countdown query whose activation precondition fails returns `None`:
shared characterization used by several theorems. -/
lemma queries_none_of_precondition (t : HdoData) (now : PyDateTime) :
    (t.lowActive = false → get_low_tariff_remaining_seconds t now = PyResult.ok none) ∧
    (t.highActive = false → get_high_tariff_remaining_seconds t now = PyResult.ok none) ∧
    (t.lowActive = true → get_next_low_tariff_seconds t now = PyResult.ok none) ∧
    (t.highActive = true → get_next_high_tariff_seconds t now = PyResult.ok none) := by
  refine ⟨fun h => ?_, fun h => ?_, fun h => ?_, fun h => ?_⟩
  · unfold get_low_tariff_remaining_seconds
    rw [h]
  · unfold get_high_tariff_remaining_seconds
    rw [h]
  · unfold get_next_low_tariff_seconds
    rw [h]
  · unfold get_next_high_tariff_seconds
    rw [h]

end Lemmas

/-- C1: exactly one of `low_active`/`high_active` is true whenever the
resolved schedule is non-empty; both are false only in the unresolved state,
and in particular a missing response payload, a failed last update, or a
payload whose entries all fail to parse each yield the all-false, all-null
unresolved tuple. -/
theorem c1_partition (p : List RawEntry) (sig : Option String)
    (ref : PyDateTime) (succ : Bool) (resp : Option (List RawEntry)) :
    (resolvedIntervals p sig ref ≠ [] →
      ((isHdo p sig ref).lowActive = true ∧ (isHdo p sig ref).highActive = false) ∨
      ((isHdo p sig ref).lowActive = false ∧ (isHdo p sig ref).highActive = true)) ∧
    getHdoDataFn ⟨none, succ, sig⟩ ref = unresolvedData ∧
    getHdoDataFn ⟨resp, false, sig⟩ ref = unresolvedData ∧
    ((∀ e ∈ p, e.day = none) → getHdoDataFn ⟨some p, true, sig⟩ ref = unresolvedData) := by
  refine ⟨fun h => ?_, by cases succ <;> rfl, by cases resp <;> rfl, fun hall => ?_⟩
  · exact evalIntervals_flags _ _ h
  · show isHdo p sig ref = unresolvedData
    simp only [isHdo, resolvedIntervals, parseEntries_nil p hall, selectedSignal_nil]
    rfl

/-- C1 witness: the sample payload resolves non-trivially and an unparsable
payload collapses to the unresolved tuple. -/
theorem c1_partition_witness :
    (((isHdo samplePayload (some "X") sampleRef).lowActive = true ∧
       (isHdo samplePayload (some "X") sampleRef).highActive = false) ∨
     ((isHdo samplePayload (some "X") sampleRef).lowActive = false ∧
       (isHdo samplePayload (some "X") sampleRef).highActive = true)) ∧
    getHdoDataFn ⟨some unparsablePayload, true, none⟩ sampleRef = unresolvedData :=
  ⟨(c1_partition samplePayload (some "X") sampleRef true none).1 (by decide),
   (c1_partition unparsablePayload none sampleRef true none).2.2.2 (by decide)⟩

/-- C2 (failing evaluation): with the low tariff active, a period end of
06:00 and reference instant 2024-01-31 23:00:00, the remaining-seconds query
raises `ValueError` from `replace(day=32)` instead of returning the
whole-second difference to 2024-02-01 06:00:00. -/
theorem c2_month_end_value_error :
    get_low_tariff_remaining_seconds
      ⟨true, some 79200, some 21600, some 28800, false, some 21600, none, none⟩
      ⟨⟨2024, 1, 31⟩, 82800⟩ = PyResult.valueError := by
  decide

/-- C3 (failing evaluation): with the low tariff inactive and the next low
start at 06:00, a reference instant of 2023-04-30 10:00:00 makes the
next-low countdown raise `ValueError` from `replace(day=31)` in April,
so the day-rollover is not calendar-correct on the last day of a month. -/
theorem c3_month_end_rollover_fails :
    get_next_low_tariff_seconds
      ⟨false, some 21600, none, none, true, none, none, none⟩
      ⟨⟨2023, 4, 30⟩, 36000⟩ = PyResult.valueError := by
  decide

/-- C4: each countdown query returns `None` whenever its activation
precondition fails — the remaining-time queries when the tariff kind is not
active, the next-start queries when it is already active. -/
theorem c4_null_when_precondition_fails (t : HdoData) (now : PyDateTime) :
    (t.lowActive = false → get_low_tariff_remaining_seconds t now = PyResult.ok none) ∧
    (t.highActive = false → get_high_tariff_remaining_seconds t now = PyResult.ok none) ∧
    (t.lowActive = true → get_next_low_tariff_seconds t now = PyResult.ok none) ∧
    (t.highActive = true → get_next_high_tariff_seconds t now = PyResult.ok none) :=
  queries_none_of_precondition t now

/-- C4 witness: concrete inactive and active tuples make each query `None`. -/
theorem c4_null_witness :
    get_low_tariff_remaining_seconds unresolvedData sampleRef = PyResult.ok none ∧
    get_high_tariff_remaining_seconds unresolvedData sampleRef = PyResult.ok none ∧
    get_next_low_tariff_seconds bothActiveData sampleRef = PyResult.ok none ∧
    get_next_high_tariff_seconds bothActiveData sampleRef = PyResult.ok none :=
  ⟨(c4_null_when_precondition_fails unresolvedData sampleRef).1 rfl,
   (c4_null_when_precondition_fails unresolvedData sampleRef).2.1 rfl,
   (c4_null_when_precondition_fails bothActiveData sampleRef).2.2.1 rfl,
   (c4_null_when_precondition_fails bothActiveData sampleRef).2.2.2 rfl⟩

/-- C5: a missing payload, an empty payload and an absent preferred signal
each surface as the unresolved tuple (both actives false, all period fields
null), and all four countdown queries return `None` — never an exception. -/
theorem c5_missing_data_unresolved (p : List RawEntry) (s : String)
    (sig : Option String) (ref : PyDateTime) (succ : Bool) :
    (getHdoDataFn ⟨none, succ, sig⟩ ref = unresolvedData ∧
      allCountdownsNone ⟨none, succ, sig⟩ ref) ∧
    (getHdoDataFn ⟨some [], true, sig⟩ ref = unresolvedData ∧
      allCountdownsNone ⟨some [], true, sig⟩ ref) ∧
    ((∀ e ∈ parseEntries p, e.code ≠ s) →
      getHdoDataFn ⟨some p, true, some s⟩ ref = unresolvedData ∧
      allCountdownsNone ⟨some p, true, some s⟩ ref) := by
  have hnone : getHdoDataFn ⟨none, succ, sig⟩ ref = unresolvedData := by
    cases succ <;> rfl
  have hempty : getHdoDataFn ⟨some [], true, sig⟩ ref = unresolvedData := by
    show isHdo [] sig ref = unresolvedData
    simp only [isHdo, resolvedIntervals, parseEntries, List.filterMap_nil,
      selectedSignal_nil]
    rfl
  refine ⟨⟨hnone, countdowns_none_of_unresolved _ _ hnone⟩,
          ⟨hempty, countdowns_none_of_unresolved _ _ hempty⟩, fun habs => ?_⟩
  have habsent : getHdoDataFn ⟨some p, true, some s⟩ ref = unresolvedData := by
    show isHdo p (some s) ref = unresolvedData
    simp only [isHdo, resolvedIntervals, selectedSignal_absent _ _ habs]
    rfl
  exact ⟨habsent, countdowns_none_of_unresolved _ _ habsent⟩

/-- C5 witness: a preferred signal absent from the sample payload yields the
unresolved tuple and four `None` countdowns. -/
theorem c5_missing_data_witness :
    getHdoDataFn ⟨some samplePayload, true, some "Y"⟩ sampleRef = unresolvedData ∧
    allCountdownsNone ⟨some samplePayload, true, some "Y"⟩ sampleRef :=
  (c5_missing_data_unresolved samplePayload "Y" none sampleRef true).2.2
    (by decide)

/-- C6: whenever a countdown query is defined (its precondition holds and
the boundary time is present) the value returned is at least 0, and it can
equal 0 only if the reference instant coincides with the anchored boundary
instant (the model proves the value is in fact always at least 1, so the
only-if holds vacuously). -/
theorem c6_countdown_nonnegative (t : HdoData) (now : PyDateTime)
    (hsod : now.sod < secondsPerDay) (hday : 1 ≤ now.date.day) :
    (∀ v tod, t.lowEnd = some tod →
      get_low_tariff_remaining_seconds t now = PyResult.ok (some v) →
      0 ≤ v ∧ (v = 0 → PyDateTime.toSec ⟨now.date, tod⟩ = now.toSec)) ∧
    (∀ v tod, t.highEnd = some tod →
      get_high_tariff_remaining_seconds t now = PyResult.ok (some v) →
      0 ≤ v ∧ (v = 0 → PyDateTime.toSec ⟨now.date, tod⟩ = now.toSec)) ∧
    (∀ v tod, t.lowStart = some tod →
      get_next_low_tariff_seconds t now = PyResult.ok (some v) →
      0 ≤ v ∧ (v = 0 → PyDateTime.toSec ⟨now.date, tod⟩ = now.toSec)) ∧
    (∀ v tod, t.highStart = some tod →
      get_next_high_tariff_seconds t now = PyResult.ok (some v) →
      0 ≤ v ∧ (v = 0 → PyDateTime.toSec ⟨now.date, tod⟩ = now.toSec)) := by
  have key : ∀ v tod, boundaryCountdown tod now = PyResult.ok (some v) →
      0 ≤ v ∧ (v = 0 → PyDateTime.toSec ⟨now.date, tod⟩ = now.toSec) := by
    intro v tod h
    have h1 := boundaryCountdown_ge_one tod now v hsod hday h
    exact ⟨by omega, fun h0 => absurd (h0 ▸ h1) (by norm_num)⟩
  refine ⟨fun v tod he hq => ?_, fun v tod he hq => ?_,
          fun v tod he hq => ?_, fun v tod he hq => ?_⟩
  · cases ha : t.lowActive
    · rw [(queries_none_of_precondition t now).1 ha] at hq
      cases hq
    · exact key v tod ((lowRem_eq t now tod ha he) ▸ hq)
  · cases ha : t.highActive
    · rw [(queries_none_of_precondition t now).2.1 ha] at hq
      cases hq
    · exact key v tod ((highRem_eq t now tod ha he) ▸ hq)
  · cases ha : t.lowActive
    · exact key v tod ((nextLow_eq t now tod ha he) ▸ hq)
    · rw [(queries_none_of_precondition t now).2.2.1 ha] at hq
      cases hq
  · cases ha : t.highActive
    · exact key v tod ((nextHigh_eq t now tod ha he) ▸ hq)
    · rw [(queries_none_of_precondition t now).2.2.2 ha] at hq
      cases hq

/-- C6 witness: the sample low-active tuple at 2024-01-01 10:00 returns
36000 remaining seconds, which is non-negative. -/
theorem c6_countdown_witness :
    0 ≤ (36000 : Int) ∧
    ((36000 : Int) = 0 →
      PyDateTime.toSec ⟨⟨2024, 1, 1⟩, 72000⟩ = PyDateTime.toSec ⟨⟨2024, 1, 1⟩, 36000⟩) :=
  (c6_countdown_nonnegative sampleLowActive ⟨⟨2024, 1, 1⟩, 36000⟩
      (by decide) (by decide)).1 36000 72000 rfl (by decide)

/-- C7: evaluation is a pure function of the stored payload, the configured
signal and the reference instant: the `_get_hdo_data` call writes no entity
field, two successive calls agree, and two entities whose relevant fields
coincide evaluate identically. -/
theorem c7_evaluation_pure (st st2 : EntityState) (now : PyDateTime) :
    (getHdoDataCall st now).2 = st ∧
    (getHdoDataCall st now).1 = (getHdoDataCall (getHdoDataCall st now).2 now).1 ∧
    (st.responseData = st2.responseData → st.lastUpdateSuccess = st2.lastUpdateSuccess →
      st.signal = st2.signal → getHdoDataFn st now = getHdoDataFn st2 now) := by
  refine ⟨rfl, rfl, fun h1 h2 h3 => ?_⟩
  cases st
  cases st2
  simp only at h1 h2 h3
  subst h1 h2 h3
  rfl

/-- C7 witness: the sample state evaluated twice yields the same tuple. -/
theorem c7_evaluation_pure_witness :
    getHdoDataFn sampleState sampleRef = getHdoDataFn sampleState sampleRef :=
  (c7_evaluation_pure sampleState sampleState sampleRef).2.2 rfl rfl rfl

/-- C8: the frequent-update override leaves the stored response data and
last-update status unchanged, ignores the fetch environment entirely, and
the countdowns recomputed afterwards depend only on the stored state and the
fresh clock. -/
theorem c8_frequent_update_frame (st : EntityState) (env env2 : FetchEnv)
    (now : PyDateTime) :
    (frequentUpdateStep st env).responseData = st.responseData ∧
    (frequentUpdateStep st env).lastUpdateSuccess = st.lastUpdateSuccess ∧
    frequentUpdateStep st env = frequentUpdateStep st env2 ∧
    entityLowRemaining (frequentUpdateStep st env) now = entityLowRemaining st now ∧
    entityHighRemaining (frequentUpdateStep st env) now = entityHighRemaining st now ∧
    entityNextLow (frequentUpdateStep st env) now = entityNextLow st now ∧
    entityNextHigh (frequentUpdateStep st env) now = entityNextHigh st now :=
  ⟨rfl, rfl, rfl, rfl, rfl, rfl, rfl⟩

/-- C9: for every tuple and reference instant, the remaining-time query and
the next-start query of one tariff kind are never both numbers — whichever
activation precondition fails forces its query to `None`. -/
theorem c9_remaining_next_exclusive (t : HdoData) (now : PyDateTime) :
    (get_low_tariff_remaining_seconds t now = PyResult.ok none ∨
      get_next_low_tariff_seconds t now = PyResult.ok none) ∧
    (get_high_tariff_remaining_seconds t now = PyResult.ok none ∨
      get_next_high_tariff_seconds t now = PyResult.ok none) := by
  constructor
  · cases ha : t.lowActive
    · exact Or.inl ((queries_none_of_precondition t now).1 ha)
    · exact Or.inr ((queries_none_of_precondition t now).2.2.1 ha)
  · cases ha : t.highActive
    · exact Or.inl ((queries_none_of_precondition t now).2.1 ha)
    · exact Or.inr ((queries_none_of_precondition t now).2.2.2 ha)

/-- C10: the `formatted_time` decomposition of a non-null countdown value
into hours, minutes and seconds is exact — `h*3600 + m*60 + s` recovers the
value, minutes and seconds lie in 0..59 — and a null countdown yields a null
attribute. -/
theorem c10_formatted_time_exact :
    (∀ n : Nat,
      formattedTime (some (n : Int)) = some (n / 3600, n % 3600 / 60, n % 60) ∧
      n / 3600 * 3600 + n % 3600 / 60 * 60 + n % 60 = n ∧
      n % 3600 / 60 ≤ 59 ∧ n % 60 ≤ 59) ∧
    formattedTime none = none := by
  refine ⟨fun n => ⟨?_, by omega, by omega, by omega⟩, rfl⟩
  simp [formattedTime]

end CezHdo
